import Mathlib

set_option maxRecDepth 8192

/-!
Shallow embedding of the auth-service subsystem of `frontend-platform`:

* `AbstractAuthService.js` — shared base class (login/logout redirect URL
  construction, session accessors, middleware application);
* `AxiosJwtAuthService` (in `createApiInterceptor.js`) — the JWT auth service:
  constructor with resilient cache initialization, `fetchAuthenticatedUser`,
  `ensureAuthenticatedUser`, `hydrateAuthenticatedUser`, and the CSRF
  skip predicate of `addAuthenticationToHttpClient`;
* `DevelopmentAuthService` — the development (mock) auth service.

JavaScript objects are embedded as association lists with last-binding-wins
lookup (`jsGet`), which models object-literal spread semantics.  Effects
(browser navigation, logging, network calls, middleware application) are made
explicit as data returned alongside results.
-/

/-- JavaScript values as far as the auth services construct or inspect them.
The services treat field values atomically (they are copied, merged and
compared, never destructured); the only array the services themselves build is
the `roles` list of strings, so a flat value universe suffices. -/
inductive JsValue where
  | undefined
  | null
  | bool (b : Bool)
  | num (n : Int)
  | str (s : String)
  | arr (xs : List String)
deriving Repr, DecidableEq

/-- A JavaScript object: an association list of fields.  Later bindings shadow
earlier ones, exactly as in an object literal built by spreads. -/
abbrev JsObj := List (String × JsValue)

/-- Field lookup with JavaScript object-literal semantics: the last binding of
a key wins. -/
def jsGet (o : JsObj) (k : String) : Option JsValue :=
  List.lookup k o.reverse

/-- First-defined choice on optional values, used to state what spread-merge
does to lookups. -/
def jsOrElse (a b : Option JsValue) : Option JsValue :=
  match a with
  | some v => some v
  | none => b

/-- JavaScript truthiness for the embedded values (`NaN` is not representable
here; the auth services never produce it). -/
def JsValue.truthy : JsValue → Bool
  | .undefined => false
  | .null => false
  | .bool b => b
  | .num n => n != 0
  | .str s => s != ""
  | .arr _ => true

/-- JavaScript `a || b` on embedded values. -/
def jsOr (a b : JsValue) : JsValue :=
  if a.truthy then a else b

/-- JavaScript `String.prototype.startsWith`: `searchString` is tested as a
prefix of `s`. -/
def jsStartsWith (s searchString : String) : Bool :=
  searchString.data.isPrefixOf s.data

/-- Hexadecimal digit characters used by percent-encoding. -/
def hexDigit (n : Nat) : Char :=
  "0123456789ABCDEF".toList.getD n (Char.ofNat 48)

/-- UTF-8 bytes (as `Nat`s) of a code point, for percent-encoding. -/
def utf8Bytes (n : Nat) : List Nat :=
  if n < 0x80 then [n]
  else if n < 0x800 then [0xC0 + n / 0x40, 0x80 + n % 0x40]
  else if n < 0x10000 then
    [0xE0 + n / 0x1000, 0x80 + (n / 0x40) % 0x40, 0x80 + n % 0x40]
  else
    [0xF0 + n / 0x40000, 0x80 + (n / 0x1000) % 0x40,
     0x80 + (n / 0x40) % 0x40, 0x80 + n % 0x40]

/-- Characters `encodeURIComponent` leaves unescaped: alphanumerics and
`- _ . ! ~ * ' ( )` (the apostrophe is tested by code point 39). -/
def isUnreservedURIChar (c : Char) : Bool :=
  c.isAlphanum || "-_.!~*()".contains c || c.toNat == 39

/-- Percent-encoding of one byte, e.g. `47 ↦ "%2F"`. -/
def percentEncodeByte (b : Nat) : String :=
  String.mk ['%', hexDigit (b / 16), hexDigit (b % 16)]

/-- JavaScript `encodeURIComponent`: unreserved characters pass through,
everything else is percent-encoded as UTF-8 bytes. -/
def encodeURIComponent (s : String) : String :=
  String.join (s.toList.map (fun c =>
    if isUnreservedURIChar c then String.singleton c
    else String.join ((utf8Bytes c.toNat).map percentEncodeByte)))

/-- Splits a character list at underscores (structural model of splitting a
snake_case identifier into chunks). -/
def splitOnUnderscore : List Char → List (List Char)
  | [] => [[]]
  | c :: rest =>
    let r := splitOnUnderscore rest
    if c = Char.ofNat 95 then [] :: r
    else
      match r with
      | [] => [[c]]
      | h :: t => (c :: h) :: t

/-- Uppercases the first character of a chunk. -/
def capitalizeChunk : List Char → List Char
  | [] => []
  | c :: rest => c.toUpper :: rest

/-- Modelled from the spec: the key-conversion primitive of `camelCaseObject`
(which lives in `../utils`, outside the sources provided): "field names
converted from the wire's snake_case convention to the in-memory camelCase
convention" — the first underscore-separated chunk is kept, each later chunk
is capitalized, and the underscores are dropped (`"full_name" ↦ "fullName"`). -/
def snakeToCamel (s : String) : String :=
  match splitOnUnderscore s.toList with
  | [] => ""
  | h :: t => String.mk (h ++ (t.map capitalizeChunk).flatten)

/-- Modelled from the spec: `camelCaseObject` (from `../utils`, outside the
sources provided) converts each field name of the wire object from snake_case
to camelCase, keeping the field's value. -/
def camelCaseObject (o : JsObj) : JsObj :=
  o.map (fun kv => (snakeToCamel kv.1, kv.2))

/-- The configuration object shared by all auth services
(`abstractOptionsPropTypes` lists exactly these required string fields). -/
structure AuthConfig where
  BASE_URL : String
  LMS_BASE_URL : String
  LOGIN_URL : String
  LOGOUT_URL : String
  REFRESH_ACCESS_TOKEN_ENDPOINT : String
  ACCESS_TOKEN_COOKIE_NAME : String
  CSRF_TOKEN_API_PATH : String
deriving Repr, DecidableEq

/-- `AbstractAuthService.getLoginRedirectUrl`: builds
`{LOGIN_URL}?next={encodeURIComponent(redirectUrl)}`. -/
def AbstractAuthService.getLoginRedirectUrl (cfg : AuthConfig) (redirectUrl : String) : String :=
  cfg.LOGIN_URL ++ "?next=" ++ encodeURIComponent redirectUrl

/-- The two errors `ensureAuthenticatedUser` can throw: the redirect-loop
error ("Redirect from login page. Rejecting to avoid infinite redirect
loop.") and the unauthorized error ("Failed to ensure the user is
authenticated") whose `isRedirecting` attribute is set to `true`. -/
inductive AuthError where
  | redirectLoop
  | redirecting
deriving Repr, DecidableEq

/-- The `isRedirecting` attribute of the thrown error: only the unauthorized
redirect error carries `isRedirecting = true`. -/
def AuthError.isRedirecting : AuthError → Bool
  | .redirectLoop => false
  | .redirecting => true

/-- Result of a call to `ensureAuthenticatedUser`: the browser navigations
performed (`global.location.assign` URLs, in order), the number of
`logFrontendAuthError` calls, and the settled outcome. -/
structure EnsureOutcome where
  navigations : List String
  logErrors : Nat
  result : Except AuthError JsObj
deriving Repr

/-- The condition `global.document.referrer &&
global.document.referrer.startsWith(this.config.LOGIN_URL)` — an empty
referrer is falsy, short-circuiting the conjunction. -/
def isRedirectFromLoginPage (loginUrl referrer : String) : Bool :=
  !(referrer == "") && jsStartsWith referrer loginUrl

/-- Fields the JWT auth service reads from a decoded access token. -/
structure DecodedToken where
  email : JsValue
  user_id : JsValue
  preferred_username : JsValue
  roles : JsValue
  administrator : JsValue
  name : JsValue
deriving Repr, DecidableEq

/-- The user object `AxiosJwtAuthService.fetchAuthenticatedUser` passes to
`setAuthenticatedUser` when the decoded token is non-null: fields `email`,
`userId`, `username`, `roles` (defaulted to `[]` when falsy),
`administrator`, `name`. -/
def AxiosJwtAuthService.userFromToken (t : DecodedToken) : JsObj :=
  [("email", t.email),
   ("userId", t.user_id),
   ("username", t.preferred_username),
   ("roles", jsOr t.roles (.arr [])),
   ("administrator", t.administrator),
   ("name", t.name)]

/-- `AxiosJwtAuthService.fetchAuthenticatedUser`: the session's user after the
fetch, as a function of the decoded token the token service returned (`none`
models `getJwtToken` resolving to `null`).  The session user is set to the
constructed user object, or to `null` when the token is `null`, and then
returned. -/
def AxiosJwtAuthService.fetchAuthenticatedUser (decoded : Option DecodedToken) : Option JsObj :=
  decoded.map AxiosJwtAuthService.userFromToken

/-- `AxiosJwtAuthService.ensureAuthenticatedUser`: after
`fetchAuthenticatedUser`, if the session user is `null` it either throws the
redirect-loop error (when `isRedirectFromLoginPage`, logging it first) or
navigates to `getLoginRedirectUrl(redirectUrl)` and throws the
`isRedirecting` error; otherwise it returns the user. -/
def AxiosJwtAuthService.ensureAuthenticatedUser (cfg : AuthConfig) (referrer : String)
    (decoded : Option DecodedToken) (redirectUrl : String) : EnsureOutcome :=
  match AxiosJwtAuthService.fetchAuthenticatedUser decoded with
  | none =>
    if isRedirectFromLoginPage cfg.LOGIN_URL referrer then
      { navigations := [], logErrors := 1, result := .error .redirectLoop }
    else
      { navigations := [AbstractAuthService.getLoginRedirectUrl cfg redirectUrl],
        logErrors := 0,
        result := .error .redirecting }
  | some u => { navigations := [], logErrors := 0, result := .ok u }

/-- `AxiosJwtAuthService.ensureAuthenticatedUser` with its default argument:
`redirectUrl = this.config.BASE_URL`. -/
def AxiosJwtAuthService.ensureAuthenticatedUserDefault (cfg : AuthConfig) (referrer : String)
    (decoded : Option DecodedToken) : EnsureOutcome :=
  AxiosJwtAuthService.ensureAuthenticatedUser cfg referrer decoded cfg.BASE_URL

/-- `AxiosJwtAuthService.hydrateAuthenticatedUser`: when the session user is
non-null, performs one GET on the accounts endpoint and replaces the session
user by `{ ...user, ...camelCaseObject(response.data) }`; when the session is
anonymous it does nothing.  Returns the new session user and the number of
network calls performed. -/
def AxiosJwtAuthService.hydrateAuthenticatedUser (user : Option JsObj)
    (responseData : JsObj) : Option JsObj × Nat :=
  match user with
  | none => (none, 0)
  | some u => (some (u ++ camelCaseObject responseData), 1)

/-- `CSRF_PROTECTED_METHODS` from `addAuthenticationToHttpClient`. -/
def CSRF_PROTECTED_METHODS : List String := ["post", "put", "patch", "delete"]

/-- The `shouldSkip` closure handed to `createCsrfTokenProviderInterceptor`:
`isCsrfExempt || !CSRF_PROTECTED_METHODS.includes(method)`. -/
def csrfShouldSkip (method : String) ( isCsrfExempt : Bool) : Bool :=
  isCsrfExempt || !(CSRF_PROTECTED_METHODS.contains method)

/-- An outgoing request as far as the CSRF interceptor inspects it. -/
structure CsrfRequest where
  method : String
  isCsrfExempt : Bool
  headers : List (String × String)
deriving Repr, DecidableEq

/-- Modelled from the spec: `createCsrfTokenProviderInterceptor` itself is not
among the sources provided (only the `shouldSkip` closure passed to it is);
per the spec's request-pipeline section, when not skipped it calls
`getAntiForgeryToken` and sets the token as a request header.  The second
component counts calls to `getAntiForgeryToken`. -/
def csrfTokenProviderInterceptor (token : String) (req : CsrfRequest) : CsrfRequest × Nat :=
  if csrfShouldSkip req.method req.isCsrfExempt then
    (req, 0)
  else
    ({ req with headers := req.headers ++ [("X-CSRFToken", token)] }, 1)

/-- A middleware-application event: `(middleware index, client slot, client
id)` — the slot is the position in `getMiddlewareClients()`'s list and the id
identifies the underlying client object that slot holds. -/
abbrev MwEvent := Nat × Nat × Nat

/-- The client-handle state of an `AxiosJwtAuthService`: the four client
fields (holding client-object ids, `none` for `null`), the messages logged via
`logFrontendAuthError`, and the middleware applications performed so far. -/
structure JwtClientState where
  authenticatedHttpClient : Option Nat
  httpClient : Option Nat
  cachedAuthenticatedHttpClient : Option Nat
  cachedHttpClient : Option Nat
  loggedErrors : List String
  mwEvents : List MwEvent
deriving Repr, DecidableEq

/-- The state the `AxiosJwtAuthService` constructor establishes synchronously:
a fresh authenticated client (id 0) and a fresh plain client (id 1); both
cached handles `null`; nothing logged, no middleware applied yet
(`configureCache()` has been started but has not settled). -/
def jwtConstructorState : JwtClientState :=
  { authenticatedHttpClient := some 0
    httpClient := some 1
    cachedAuthenticatedHttpClient := none
    cachedHttpClient := none
    loggedErrors := []
    mwEvents := [] }

/-- `AxiosJwtAuthService.getMiddlewareClients` (the override): the four client
fields, in declaration order. -/
def AxiosJwtAuthService.getMiddlewareClients (s : JwtClientState) : List (Option Nat) :=
  [s.authenticatedHttpClient,
   s.httpClient,
   s.cachedAuthenticatedHttpClient,
   s.cachedHttpClient]

/-- Inner loop of `AbstractAuthService.applyMiddleware` for middleware number
`m`, walking the clients from slot `idx` on:
`clients.forEach((client) => client && middlewareFn(client))` — `null`
clients are skipped by the truthiness guard. -/
def slotEventsFrom (m idx : Nat) : List (Option Nat) → List MwEvent
  | [] => []
  | none :: rest => slotEventsFrom m (idx + 1) rest
  | some cid :: rest => (m, idx, cid) :: slotEventsFrom m (idx + 1) rest

/-- One pass of the inner loop of `AbstractAuthService.applyMiddleware` for
middleware number `m` over all client slots. -/
def slotEvents (m : Nat) (clients : List (Option Nat)) : List MwEvent :=
  slotEventsFrom m 0 clients

/-- `AbstractAuthService.applyMiddleware` over middleware functions numbered
`0, …, n-1`: the outer loop runs over the middleware in order, the inner loop
over the clients. -/
def applyMiddlewareEvents : Nat → List (Option Nat) → List MwEvent
  | 0, _ => []
  | n + 1, clients => applyMiddlewareEvents n clients ++ slotEvents n clients

/-- Settlement of the `configureCache()` promise chain in the
`AxiosJwtAuthService` constructor.  On success (`.ok`) the cached handles
become fresh cache-backed clients (ids 2 and 3); on failure (`.error e`) they
are aliased to the direct clients and the failure is logged once; in both
cases (`finally`) the `n` configured middleware functions are then applied to
`getMiddlewareClients()`. -/
def settleCache (outcome : Except String Unit) (n : Nat) (s : JwtClientState) : JwtClientState :=
  let s1 :=
    match outcome with
    | .ok _ =>
      { s with cachedAuthenticatedHttpClient := some 2, cachedHttpClient := some 3 }
    | .error e =>
      { s with
        cachedAuthenticatedHttpClient := s.authenticatedHttpClient
        cachedHttpClient := s.httpClient
        loggedErrors := s.loggedErrors ++ ["configureCache failed with error: " ++ e] }
  { s1 with
    mwEvents := s1.mwEvents ++ applyMiddlewareEvents n (AxiosJwtAuthService.getMiddlewareClients s1) }

/-- `AxiosJwtAuthService.getAuthenticatedHttpClient({useCache})`: the cached
handle when `useCache` is truthy, otherwise the base class's direct handle. -/
def AxiosJwtAuthService.getAuthenticatedHttpClient (useCache : Bool) (s : JwtClientState) : Option Nat :=
  if useCache then s.cachedAuthenticatedHttpClient else s.authenticatedHttpClient

/-- `AxiosJwtAuthService.getHttpClient({useCache})`: the cached handle when
`useCache` is truthy, otherwise the base class's direct handle. -/
def AxiosJwtAuthService.getHttpClient (useCache : Bool) (s : JwtClientState) : Option Nat :=
  if useCache then s.cachedHttpClient else s.httpClient

/-- The `dev` block of the development configuration
(`this.config.dev || {}`): optional mock `authenticatedUser` and
`hydratedAuthenticatedUser` objects. -/
structure DevOptions where
  authenticatedUser : Option JsObj
  hydratedAuthenticatedUser : Option JsObj
deriving Repr, DecidableEq

/-- A development configuration: the shared fields plus the optional `dev`
block. -/
structure DevConfig where
  base : AuthConfig
  dev : Option DevOptions
deriving Repr, DecidableEq

/-- The session-relevant state of a `DevelopmentAuthService`. -/
structure DevState where
  authenticatedUser : Option JsObj
  hydratedAuthenticatedUser : JsObj
deriving Repr, DecidableEq

/-- The `DevelopmentAuthService` constructor:
`const { authenticatedUser, hydratedAuthenticatedUser } = this.config.dev || {};`
then `this.authenticatedUser = authenticatedUser || null` and
`this.hydratedAuthenticatedUser = hydratedAuthenticatedUser || {}`. -/
def DevelopmentAuthService.mkService (cfg : DevConfig) : DevState :=
  let devOpts := cfg.dev.getD { authenticatedUser := none, hydratedAuthenticatedUser := none }
  { authenticatedUser := devOpts.authenticatedUser
    hydratedAuthenticatedUser := devOpts.hydratedAuthenticatedUser.getD [] }

/-- `DevelopmentAuthService.fetchAuthenticatedUser`: returns
`this.getAuthenticatedUser()` without touching the state. -/
def DevelopmentAuthService.fetchAuthenticatedUser (s : DevState) : DevState × Option JsObj :=
  (s, s.authenticatedUser)

/-- `DevelopmentAuthService.hydrateAuthenticatedUser`: returns
`this.getAuthenticatedUser()` without touching the state. -/
def DevelopmentAuthService.hydrateAuthenticatedUser (s : DevState) : DevState × Option JsObj :=
  (s, s.authenticatedUser)

/-- `DevelopmentAuthService.ensureAuthenticatedUser`: identical in shape to
the JWT variant, but its `fetchAuthenticatedUser` reads the mock user stored
by the constructor. -/
def DevelopmentAuthService.ensureAuthenticatedUser (cfg : AuthConfig) (referrer : String)
    (s : DevState) (redirectUrl : String) : EnsureOutcome :=
  match (DevelopmentAuthService.fetchAuthenticatedUser s).2 with
  | none =>
    if isRedirectFromLoginPage cfg.LOGIN_URL referrer then
      { navigations := [], logErrors := 1, result := .error .redirectLoop }
    else
      { navigations := [AbstractAuthService.getLoginRedirectUrl cfg redirectUrl],
        logErrors := 0,
        result := .error .redirecting }
  | some u => { navigations := [], logErrors := 0, result := .ok u }

/-- Modelled from the spec: the credential provider (`AxiosJwtTokenService`)
is not among the sources provided.  Per the spec's data model, it keeps a
cached credential and a singleton in-flight refresh marker: while the marker
is non-null all concurrent requesters await the same pending operation, and
the marker is set back to null once the operation settles. -/
structure TokenServiceState (V : Type) where
  cached : Option V
  inflight : Option Nat
  waiters : List Nat
  backendCalls : Nat
deriving Repr, DecidableEq

/-- Modelled from the spec: the credential provider's initial state — nothing
cached, no refresh in flight. -/
def initTokenState (V : Type) : TokenServiceState V :=
  { cached := none, inflight := none, waiters := [], backendCalls := 0 }

/-- Modelled from the spec: one caller asking the credential provider for the
credential.  A cached value is returned immediately without any backend call;
otherwise the caller joins the waiters of the in-flight refresh, starting a
new backend refresh (and setting the in-flight marker) only when none is
pending. -/
def requestJwtToken {V : Type} (caller : Nat) (s : TokenServiceState V) :
    TokenServiceState V × Option V :=
  match s.cached with
  | some v => (s, some v)
  | none =>
    match s.inflight with
    | some _ => ({ s with waiters := s.waiters ++ [caller] }, none)
    | none =>
      ({ s with
          inflight := some s.backendCalls
          backendCalls := s.backendCalls + 1
          waiters := s.waiters ++ [caller] }, none)

/-- Modelled from the spec: settlement of the in-flight refresh.  Every waiter
observes the one settled result, the in-flight marker is cleared, and a
successful refresh populates the cache. -/
def settleJwtRefresh {V : Type} (r : Except String V) (s : TokenServiceState V) :
    TokenServiceState V × List (Nat × Except String V) :=
  ({ s with
      cached := match r with | .ok v => some v | .error _ => s.cached
      inflight := none
      waiters := [] },
   s.waiters.map (fun c => (c, r)))

/-- State of the credential provider after callers `0, …, n-1` have each
requested the credential in order, starting from `s`. -/
def requestsUpTo {V : Type} : Nat → TokenServiceState V → TokenServiceState V
  | 0, s => s
  | n + 1, s => (requestJwtToken n (requestsUpTo n s)).1

theorem lookup_append (k : String) (l m : List (String × JsValue)) :
    List.lookup k (l ++ m) = jsOrElse (List.lookup k l) (List.lookup k m) := by
  induction l with
  | nil => rfl
  | cons p t ih =>
    cases h : k == p.1 <;> simp [List.lookup, h, ih, jsOrElse]

theorem jsGet_append (a b : JsObj) (k : String) :
    jsGet (a ++ b) k = jsOrElse (jsGet b k) (jsGet a k) := by
  simp [jsGet, List.reverse_append, lookup_append]

theorem jsStartsWith_self (s : String) : jsStartsWith s s = true := by
  simp [jsStartsWith, List.isPrefixOf_iff_prefix]

theorem isRedirectFromLoginPage_of_eq {loginUrl referrer : String}
    (h1 : referrer ≠ "") (h2 : referrer = loginUrl) :
    isRedirectFromLoginPage loginUrl referrer = true := by
  subst h2
  simp [isRedirectFromLoginPage, jsStartsWith_self, h1]

/-- A sample configuration used to witness the theorems on concrete inputs. -/
def exampleConfig : AuthConfig :=
  { BASE_URL := "http://localhost"
    LMS_BASE_URL := "http://localhost:18000"
    LOGIN_URL := "http://localhost/login"
    LOGOUT_URL := "http://localhost/logout"
    REFRESH_ACCESS_TOKEN_ENDPOINT := "http://localhost/refresh"
    ACCESS_TOKEN_COOKIE_NAME := "edx-jwt-cookie"
    CSRF_TOKEN_API_PATH := "/csrf/api/v1/token" }

/-- A configuration whose login URL is the empty string, exhibiting the
referrer-truthiness edge case of `ensureAuthenticatedUser`. -/
def emptyLoginConfig : AuthConfig :=
  { BASE_URL := "b"
    LMS_BASE_URL := "l"
    LOGIN_URL := ""
    LOGOUT_URL := "o"
    REFRESH_ACCESS_TOKEN_ENDPOINT := "r"
    ACCESS_TOKEN_COOKIE_NAME := "c"
    CSRF_TOKEN_API_PATH := "p" }

/-- Claim C1, as frozen, is refuted at the configuration whose login URL is
the empty string: with `referrer = "" = LOGIN_URL` the session is anonymous
and the referrer equals the configured login URL, yet
`ensureAuthenticatedUser` navigates to the login redirect URL and rejects
with the `isRedirecting` error rather than the redirect-loop error — the
referrer check `referrer && referrer.startsWith(LOGIN_URL)` treats the empty
referrer as falsy. -/
theorem claim_C1_counterexample :
    "" = emptyLoginConfig.LOGIN_URL ∧
    AxiosJwtAuthService.fetchAuthenticatedUser none = none ∧
    (AxiosJwtAuthService.ensureAuthenticatedUser emptyLoginConfig "" none "b").navigations
      = ["?next=b"] ∧
    (AxiosJwtAuthService.ensureAuthenticatedUser emptyLoginConfig "" none "b").result
      = .error .redirecting := by
  refine ⟨rfl, rfl, by decide, rfl⟩

/-- Claim C1 (amended: the referrer is additionally non-empty): for both the
JWT and the development auth service, if the session is anonymous after
`fetchAuthenticatedUser` (decoded token `null`, resp. stored mock user
`null`) and the non-empty referrer equals the configured login URL, then
`ensureAuthenticatedUser` rejects with the redirect-loop error (logging it)
and performs no browser navigation. -/
theorem claim_C1 (cfg : AuthConfig) (referrer redirectUrl : String) (devS : DevState)
    (h1 : referrer ≠ "") (h2 : referrer = cfg.LOGIN_URL)
    (hdev : devS.authenticatedUser = none) :
    AxiosJwtAuthService.ensureAuthenticatedUser cfg referrer none redirectUrl =
      { navigations := [], logErrors := 1, result := .error .redirectLoop } ∧
    DevelopmentAuthService.ensureAuthenticatedUser cfg referrer devS redirectUrl =
      { navigations := [], logErrors := 1, result := .error .redirectLoop } := by
  have hloop := isRedirectFromLoginPage_of_eq h1 h2
  constructor
  · simp [AxiosJwtAuthService.ensureAuthenticatedUser,
      AxiosJwtAuthService.fetchAuthenticatedUser, hloop]
  · simp [DevelopmentAuthService.ensureAuthenticatedUser,
      DevelopmentAuthService.fetchAuthenticatedUser, hdev, hloop]

/-- Witness for C1 at a concrete configuration and referrer. -/
theorem claim_C1_witness :
    ("http://localhost/login" : String) ≠ "" ∧
    ("http://localhost/login" : String) = exampleConfig.LOGIN_URL ∧
    (AxiosJwtAuthService.ensureAuthenticatedUser exampleConfig
      "http://localhost/login" none "page").result = .error .redirectLoop := by
  refine ⟨by decide, rfl, ?_⟩
  have h := claim_C1 exampleConfig "http://localhost/login" "page"
    { authenticatedUser := none, hydratedAuthenticatedUser := [] } (by decide) rfl rfl
  rw [h.1]

/-- Claim C2: for both the JWT and the development auth service, if the
session is anonymous after `fetchAuthenticatedUser` and the referrer-loop
condition does not hold, then `ensureAuthenticatedUser` performs exactly one
browser navigation, to `{LOGIN_URL}?next={encodeURIComponent(redirectUrl)}`,
and rejects with the error whose `isRedirecting` flag is set; the
`redirectUrl` argument defaults to the configured `BASE_URL`. -/
theorem claim_C2 (cfg : AuthConfig) (referrer redirectUrl : String) (devS : DevState)
    (hloop : isRedirectFromLoginPage cfg.LOGIN_URL referrer = false)
    (hdev : devS.authenticatedUser = none) :
    AxiosJwtAuthService.ensureAuthenticatedUser cfg referrer none redirectUrl =
      { navigations := [cfg.LOGIN_URL ++ "?next=" ++ encodeURIComponent redirectUrl],
        logErrors := 0, result := .error .redirecting } ∧
    DevelopmentAuthService.ensureAuthenticatedUser cfg referrer devS redirectUrl =
      { navigations := [cfg.LOGIN_URL ++ "?next=" ++ encodeURIComponent redirectUrl],
        logErrors := 0, result := .error .redirecting } ∧
    AuthError.isRedirecting .redirecting = true ∧
    AxiosJwtAuthService.ensureAuthenticatedUserDefault cfg referrer none =
      AxiosJwtAuthService.ensureAuthenticatedUser cfg referrer none cfg.BASE_URL := by
  refine ⟨?_, ?_, rfl, rfl⟩
  · simp [AxiosJwtAuthService.ensureAuthenticatedUser,
      AxiosJwtAuthService.fetchAuthenticatedUser, hloop,
      AbstractAuthService.getLoginRedirectUrl]
  · simp [DevelopmentAuthService.ensureAuthenticatedUser,
      DevelopmentAuthService.fetchAuthenticatedUser, hdev, hloop,
      AbstractAuthService.getLoginRedirectUrl]

/-- Witness for C2 at a concrete configuration, empty referrer and an
alphanumeric redirect URL. -/
theorem claim_C2_witness :
    isRedirectFromLoginPage exampleConfig.LOGIN_URL "" = false ∧
    (AxiosJwtAuthService.ensureAuthenticatedUser exampleConfig "" none "page").navigations
      = ["http://localhost/login?next=page"] := by
  refine ⟨by decide, ?_⟩
  have h := claim_C2 exampleConfig "" "page"
    { authenticatedUser := none, hydratedAuthenticatedUser := [] } (by decide) rfl
  rw [h.1]
  decide

/-- The sparse user of the spec's hydration example. -/
def exampleSparseUser : JsObj :=
  [("userId", .str "1"), ("username", .str "a"), ("roles", .arr ["x"])]

/-- The profile response of the spec's hydration example. -/
def exampleProfileResponse : JsObj :=
  [("full_name", .str "A B")]

/-- Claim C3: on an authenticated session, `hydrateAuthenticatedUser` makes
one network call and sets the session user to
`{ ...user, ...camelCaseObject(response.data) }`: every lookup on the merge
is the camelCased profile's binding when one exists (so profile fields are
present, and win on key collision), and the existing user's binding
otherwise (so user fields absent from the profile survive unchanged); the
camelCased profile's keys are exactly the profile's keys converted from
snake_case to camelCase. -/
theorem claim_C3 (u p : JsObj) :
    AxiosJwtAuthService.hydrateAuthenticatedUser (some u) p =
      (some (u ++ camelCaseObject p), 1) ∧
    (∀ k, jsGet (u ++ camelCaseObject p) k =
      jsOrElse (jsGet (camelCaseObject p) k) (jsGet u k)) ∧
    (∀ k, jsGet (camelCaseObject p) k = none →
      jsGet (u ++ camelCaseObject p) k = jsGet u k) ∧
    (∀ k v, jsGet (camelCaseObject p) k = some v →
      jsGet (u ++ camelCaseObject p) k = some v) ∧
    (camelCaseObject p).map Prod.fst = p.map (fun kv => snakeToCamel kv.1) := by
  refine ⟨rfl, ?_, ?_, ?_, ?_⟩
  · intro k; exact jsGet_append u (camelCaseObject p) k
  · intro k h; rw [jsGet_append, h]; rfl
  · intro k v h; rw [jsGet_append, h]; rfl
  · simp [camelCaseObject]

/-- Witness for C3 on the spec's example: `userId` is preserved, `full_name`
arrives as `fullName`. -/
theorem claim_C3_witness :
    jsGet (camelCaseObject exampleProfileResponse) "userId" = none ∧
    jsGet (exampleSparseUser ++ camelCaseObject exampleProfileResponse) "userId"
      = jsGet exampleSparseUser "userId" ∧
    jsGet (camelCaseObject exampleProfileResponse) "fullName" = some (.str "A B") ∧
    jsGet (exampleSparseUser ++ camelCaseObject exampleProfileResponse) "fullName"
      = some (.str "A B") := by
  have h := claim_C3 exampleSparseUser exampleProfileResponse
  exact ⟨by decide, h.2.2.1 "userId" (by decide), by decide,
    h.2.2.2.1 "fullName" (.str "A B") (by decide)⟩

/-- Claim C9: on an anonymous session (`user = null`),
`hydrateAuthenticatedUser` makes no network call and leaves the session user
unchanged, whatever the accounts endpoint would have answered. -/
theorem claim_C9 (responseData : JsObj) :
    AxiosJwtAuthService.hydrateAuthenticatedUser none responseData = (none, 0) := rfl

/-- Claim C8 (amended): the development service's `fetchAuthenticatedUser`
returns the configured `authenticatedUser` (null when absent) without
touching the state, but `hydrateAuthenticatedUser` merely returns the current
session user unchanged — the configured `hydratedAuthenticatedUser` is stored
on the service by the constructor and never installed as the session user. -/
theorem claim_C8 (cfg : DevConfig) :
    DevelopmentAuthService.fetchAuthenticatedUser (DevelopmentAuthService.mkService cfg) =
      (DevelopmentAuthService.mkService cfg,
        (cfg.dev.getD { authenticatedUser := none, hydratedAuthenticatedUser := none }).authenticatedUser) ∧
    DevelopmentAuthService.hydrateAuthenticatedUser (DevelopmentAuthService.mkService cfg) =
      (DevelopmentAuthService.mkService cfg,
        (DevelopmentAuthService.mkService cfg).authenticatedUser) ∧
    (DevelopmentAuthService.mkService cfg).hydratedAuthenticatedUser =
      ((cfg.dev.getD { authenticatedUser := none, hydratedAuthenticatedUser := none }).hydratedAuthenticatedUser).getD [] :=
  ⟨rfl, rfl, rfl⟩

/-- The configured mock user of the C8 counterexample. -/
def devUserEx : JsObj := [("username", .str "u")]

/-- The configured hydrated mock user of the C8 counterexample. -/
def devHydratedUserEx : JsObj := [("username", .str "u"), ("fullName", .str "F")]

/-- A development configuration supplying both mock users. -/
def devConfigEx : DevConfig :=
  { base := exampleConfig
    dev := some { authenticatedUser := some devUserEx
                  hydratedAuthenticatedUser := some devHydratedUserEx } }

/-- Claim C8, as frozen, is refuted: with both mock users configured,
`hydrateAuthenticatedUser` leaves the session user at the configured
`authenticatedUser` and never installs the configured
`hydratedAuthenticatedUser`, which differs from it. -/
theorem claim_C8_counterexample :
    (DevelopmentAuthService.mkService devConfigEx).hydratedAuthenticatedUser = devHydratedUserEx ∧
    (DevelopmentAuthService.hydrateAuthenticatedUser (DevelopmentAuthService.mkService devConfigEx)).1.authenticatedUser
      = some devUserEx ∧
    (DevelopmentAuthService.hydrateAuthenticatedUser (DevelopmentAuthService.mkService devConfigEx)).2
      = some devUserEx ∧
    some devUserEx ≠ some devHydratedUserEx :=
  ⟨rfl, rfl, rfl, by decide⟩

/-- Claim C10: on the state the constructor establishes synchronously (before
the cache-initialization promise settles), the `useCache` getters return
`null` while the direct getters return the freshly built clients. -/
theorem claim_C10 :
    AxiosJwtAuthService.getAuthenticatedHttpClient true jwtConstructorState = none ∧
    AxiosJwtAuthService.getHttpClient true jwtConstructorState = none ∧
    AxiosJwtAuthService.getAuthenticatedHttpClient false jwtConstructorState = some 0 ∧
    AxiosJwtAuthService.getHttpClient false jwtConstructorState = some 1 :=
  ⟨rfl, rfl, rfl, rfl⟩

/-- Claim C4: when cache initialization fails, the settled state aliases both
cached handles to the direct clients (so each `useCache` getter returns
exactly the handle its direct counterpart returns), and the failure is
reported to the logging collaborator exactly once (the log list is the
single `configureCache failed` entry).  The settlement handler is a total
function on states: the failure is absorbed, never rethrown to the
constructor's caller. -/
theorem claim_C4 (e : String) (n : Nat) :
    AxiosJwtAuthService.getAuthenticatedHttpClient true (settleCache (.error e) n jwtConstructorState) =
      AxiosJwtAuthService.getAuthenticatedHttpClient false (settleCache (.error e) n jwtConstructorState) ∧
    AxiosJwtAuthService.getHttpClient true (settleCache (.error e) n jwtConstructorState) =
      AxiosJwtAuthService.getHttpClient false (settleCache (.error e) n jwtConstructorState) ∧
    (settleCache (.error e) n jwtConstructorState).loggedErrors =
      ["configureCache failed with error: " ++ e] :=
  ⟨rfl, rfl, rfl⟩

/-- Claim C6: the anti-forgery step is skipped (no `getAntiForgeryToken`
call) exactly when the request is flagged `isCsrfExempt` or its method is
outside the protected set; an exempt request is returned untouched, and a
non-exempt request with a protected method fetches the token exactly once
and carries it as a request header. -/
theorem claim_C6 (token : String) (req : CsrfRequest) :
    ((csrfTokenProviderInterceptor token req).2 = 0 ↔
      (req.isCsrfExempt = true ∨ req.method ∉ CSRF_PROTECTED_METHODS)) ∧
    (req.isCsrfExempt = true →
      (csrfTokenProviderInterceptor token req).2 = 0 ∧
      (csrfTokenProviderInterceptor token req).1 = req) ∧
    (req.isCsrfExempt = false → req.method ∈ CSRF_PROTECTED_METHODS →
      (csrfTokenProviderInterceptor token req).2 = 1 ∧
      ("X-CSRFToken", token) ∈ (csrfTokenProviderInterceptor token req).1.headers) := by
  refine ⟨?_, ?_, ?_⟩
  · by_cases hm : req.method ∈ CSRF_PROTECTED_METHODS <;>
      cases he : req.isCsrfExempt <;>
      simp [csrfTokenProviderInterceptor, csrfShouldSkip, he, hm]
  · intro he
    simp [csrfTokenProviderInterceptor, csrfShouldSkip, he]
  · intro he hm
    simp [csrfTokenProviderInterceptor, csrfShouldSkip, he, hm]

/-- Witness for C6: a non-exempt POST fetches the token once and carries the
header. -/
theorem claim_C6_witness :
    ("post" : String) ∈ CSRF_PROTECTED_METHODS ∧
    (csrfTokenProviderInterceptor "tok"
      { method := "post", isCsrfExempt := false, headers := [] }).2 = 1 ∧
    ("X-CSRFToken", "tok") ∈ (csrfTokenProviderInterceptor "tok"
      { method := "post", isCsrfExempt := false, headers := [] }).1.headers := by
  have h := (claim_C6 "tok" { method := "post", isCsrfExempt := false, headers := [] }).2.2
    rfl (by decide)
  exact ⟨by decide, h.1, h.2⟩

theorem countP_applyMiddlewareEvents (c : List (Option Nat)) (m slot : Nat)
    (hone : (slotEvents m c).countP (fun ev => ev.1 == m && ev.2.1 == slot) = 1)
    (hzero : ∀ j, j ≠ m → (slotEvents j c).countP (fun ev => ev.1 == m && ev.2.1 == slot) = 0) :
    ∀ n, (applyMiddlewareEvents n c).countP (fun ev => ev.1 == m && ev.2.1 == slot) =
      if m < n then 1 else 0 := by
  intro n
  induction n with
  | zero => simp [applyMiddlewareEvents]
  | succ k ih =>
    rw [applyMiddlewareEvents, List.countP_append, ih]
    by_cases hkm : k = m
    · subst hkm
      rw [hone]
      split_ifs <;> omega
    · rw [hzero k hkm]
      have hne : m ≠ k := fun h => hkm h.symm
      split_ifs <;> omega

theorem countP_slotEvents_success (m slot : Nat) (hslot : slot < 4) :
    (slotEvents m [some 0, some 1, some 2, some 3]).countP
      (fun ev => ev.1 == m && ev.2.1 == slot) = 1 := by
  interval_cases slot <;>
    simp [slotEvents, slotEventsFrom, List.countP_cons, List.countP_nil]

theorem countP_slotEvents_failure (m slot : Nat) (hslot : slot < 4) :
    (slotEvents m [some 0, some 1, some 0, some 1]).countP
      (fun ev => ev.1 == m && ev.2.1 == slot) = 1 := by
  interval_cases slot <;>
    simp [slotEvents, slotEventsFrom, List.countP_cons, List.countP_nil]

theorem countP_slotEventsFrom_other (m slot j : Nat) (hj : j ≠ m) :
    ∀ idx c, (slotEventsFrom j idx c).countP (fun ev => ev.1 == m && ev.2.1 == slot) = 0 := by
  intro idx c
  induction c generalizing idx with
  | nil => simp [slotEventsFrom]
  | cons hd tl ih =>
    cases hd with
    | none => simp [slotEventsFrom, ih]
    | some cid => simp [slotEventsFrom, List.countP_cons, ih, hj]

theorem countP_slotEvents_other (c : List (Option Nat)) (m slot j : Nat) (hj : j ≠ m) :
    (slotEvents j c).countP (fun ev => ev.1 == m && ev.2.1 == slot) = 0 :=
  countP_slotEventsFrom_other m slot j hj 0 c

theorem countP_ame_success (m slot n : Nat) (hm : m < n) (hslot : slot < 4) :
    (applyMiddlewareEvents n [some 0, some 1, some 2, some 3]).countP
      (fun ev => ev.1 == m && ev.2.1 == slot) = 1 := by
  rw [countP_applyMiddlewareEvents _ m slot
    (countP_slotEvents_success m slot hslot)
    (fun j hj => countP_slotEvents_other _ m slot j hj) n]
  simp [hm]

theorem countP_ame_failure (m slot n : Nat) (hm : m < n) (hslot : slot < 4) :
    (applyMiddlewareEvents n [some 0, some 1, some 0, some 1]).countP
      (fun ev => ev.1 == m && ev.2.1 == slot) = 1 := by
  rw [countP_applyMiddlewareEvents _ m slot
    (countP_slotEvents_failure m slot hslot)
    (fun j hj => countP_slotEvents_other _ m slot j hj) n]
  simp [hm]

/-- Claim C5: no middleware is applied before the cache-initialization
promise settles (the constructor state carries no application events), and
after settlement — success or failure alike — each of the `n` configured
middleware functions has been applied through each of the four client slots
of `getMiddlewareClients()` exactly once. -/
theorem claim_C5 (outcome : Except String Unit) (n m slot : Nat)
    (hm : m < n) (hslot : slot < 4) :
    jwtConstructorState.mwEvents = [] ∧
    (settleCache outcome n jwtConstructorState).mwEvents.countP
      (fun ev => ev.1 == m && ev.2.1 == slot) = 1 := by
  refine ⟨rfl, ?_⟩
  cases outcome with
  | ok u =>
    show (List.countP _ ([] ++ applyMiddlewareEvents n [some 0, some 1, some 2, some 3]))
      = 1
    rw [List.nil_append]
    exact countP_ame_success m slot n hm hslot
  | error e =>
    show (List.countP _ ([] ++ applyMiddlewareEvents n [some 0, some 1, some 0, some 1]))
      = 1
    rw [List.nil_append]
    exact countP_ame_failure m slot n hm hslot

/-- Witness for C5: two middleware functions, success outcome, middleware 1
on slot 3. -/
theorem claim_C5_witness :
    (1 : Nat) < 2 ∧ (3 : Nat) < 4 ∧
    (settleCache (.ok ()) 2 jwtConstructorState).mwEvents.countP
      (fun ev => ev.1 == 1 && ev.2.1 == 3) = 1 :=
  ⟨by decide, by decide, (claim_C5 (.ok ()) 2 1 3 (by decide) (by decide)).2⟩

theorem requestsUpTo_spec {V : Type} (n : Nat) (hn : 1 ≤ n) :
    requestsUpTo n (initTokenState V) =
      { cached := none, inflight := some 0, waiters := List.range n, backendCalls := 1 } := by
  induction n with
  | zero => omega
  | succ k ih =>
    by_cases hk : 1 ≤ k
    · rw [requestsUpTo, ih hk]
      simp [requestJwtToken, List.range_succ]
    · have hk0 : k = 0 := by omega
      subst hk0
      simp [requestsUpTo, requestJwtToken, initTokenState, List.range_succ]

/-- Claim C7: when nothing is cached and `n ≥ 1` callers concurrently request
the credential, exactly one backend refresh is started, all `n` callers are
registered as waiters on it, settlement delivers the one settled result `r`
to every caller, and the in-flight marker is cleared by settlement. -/
theorem claim_C7 {V : Type} (n : Nat) (hn : 1 ≤ n) (r : Except String V) :
    (requestsUpTo n (initTokenState V)).backendCalls = 1 ∧
    (requestsUpTo n (initTokenState V)).waiters = List.range n ∧
    (settleJwtRefresh r (requestsUpTo n (initTokenState V))).2 =
      (List.range n).map (fun c => (c, r)) ∧
    (settleJwtRefresh r (requestsUpTo n (initTokenState V))).1.inflight = none := by
  rw [requestsUpTo_spec n hn]
  exact ⟨rfl, rfl, rfl, rfl⟩

/-- Witness for C7: three concurrent callers, a successful refresh. -/
theorem claim_C7_witness :
    (1 : Nat) ≤ 3 ∧
    (requestsUpTo 3 (initTokenState Nat)).backendCalls = 1 ∧
    (settleJwtRefresh (.ok 7) (requestsUpTo 3 (initTokenState Nat))).2 =
      [(0, .ok 7), (1, .ok 7), (2, .ok 7)] := by
  have h := claim_C7 (V := Nat) 3 (by decide) (.ok 7)
  refine ⟨by decide, h.1, ?_⟩
  rw [h.2.2.1]
  rfl
